import Mathlib

/-
Verification of the HoneyProtocol pallets (pallet-access, pallet-doctor,
pallet-patient) against their natural-language specification.

The three FRAME pallets are shallowly embedded: each storage item becomes a
field of an explicit state record (StorageMap / StorageDoubleMap become
total functions into Option, ValueQuery maps become total functions with the
default value), account ids become Nat, the [u8; 16] / [u8; 32] byte arrays
become lists of bytes, and every pallet function becomes a state transformer
returning the outcome (emitted events, a DispatchError, or a runtime panic
for an unwrap of None) together with the storage state as left at the point
of return.  Storage writes are applied eagerly, exactly where the Rust code
performs them, so a function that errors after writing leaves the write
visible in the returned state.
-/

namespace HoneyProtocol

abbrev AccountId := Nat

/-- Byte strings: `Vec<u8>` / `BoundedVec<u8, _>` values, one Nat per byte. -/
abbrev Bytes := List Nat

/-- `[u8; 16]` request correlation identifiers. -/
abbrev RequestId := List Nat

/-- `[u8; 32]` role identifiers. -/
abbrev Role := List Nat

/-- The role id `[0u8; 32]` that pallet-patient passes to `pallet_access::validate`. -/
def doctorRole : Role := List.replicate 32 0

/-- The pallet Config constants relevant to the modelled functions. -/
structure Config where
  maxNameLength : Nat
  maxEmailLength : Nat
  maxHashLength : Nat
  maxListLength : Nat
deriving Repr

/-- `pallet_access::Error`. -/
inductive AccessError where
  | accessDenied
  | alreadyHasRole
  | invalidRole
  | notAssigned
deriving DecidableEq, Repr

/-- `pallet_doctor::Error`. -/
inductive DoctorError where
  | alreadyRegistered
  | alreadyRequested
  | noRequest
  | unableToUpdate
  | alreadyApproved
  | maxListLengthReached
deriving DecidableEq, Repr

/-- `pallet_patient::Error`. -/
inductive PatientError where
  | boundsOverflow
  | alreadyRegistered
  | onlyOneRequestAllowed
  | alreadyRequested
  | noRequest
  | unableToUpdate
deriving DecidableEq, Repr

/-- `DispatchError`, restricted to the pallet error variants that occur. -/
inductive DispatchError where
  | access (e : AccessError)
  | doctor (e : DoctorError)
  | patient (e : PatientError)
deriving DecidableEq, Repr

/-- The events deposited by the three pallets. -/
inductive Event where
  | patientDataUpdated (patient_account_id : AccountId) (name : Bytes)
  | requestQueued (requester patient_account_id : AccountId) (request_unique_id : RequestId)
  | requestApproved (requester patient_account_id : AccountId) (request_unique_id : RequestId)
  | requestFulfilled (requester patient_account_id : AccountId) (data_hash : Bytes)
  | dataUpdated (requester patient_account_id : AccountId)
  | doctorDataUpdated (doctor_account_id : AccountId)
  | doctorRequestQueued (doctor_account_id patient_account_id : AccountId)
  | doctorRequestApproved (doctor_account_id patient_account_id : AccountId)
  | roleAssigned (user : AccountId) (role : Role)
  | roleRevoked (user : AccountId) (role : Role)
deriving DecidableEq, Repr

/-- Outcome of running a pallet function: success with the deposited events,
a dispatch error, or a runtime panic (an `unwrap()` of `None`). -/
inductive OpResult where
  | ok (events : List Event)
  | err (e : DispatchError)
  | panicked
deriving DecidableEq, Repr

/-- Point update of a single-key storage map. -/
def mapInsert {β : Type} (m : Nat → Option β) (k : Nat) (v : β) : Nat → Option β :=
  fun x => if x = k then some v else m x

/-- Point update of a double-key storage map (`StorageDoubleMap::insert`). -/
def dmapInsert {β : Type} (m : Nat → Nat → Option β) (k1 k2 : Nat) (v : β) :
    Nat → Nat → Option β :=
  fun x y => if x = k1 ∧ y = k2 then some v else m x y

/-- Point removal from a double-key storage map (`StorageDoubleMap::remove`). -/
def dmapRemove {β : Type} (m : Nat → Nat → Option β) (k1 k2 : Nat) :
    Nat → Nat → Option β :=
  fun x y => if x = k1 ∧ y = k2 then none else m x y

/-- `Vec::swap_remove`: remove index `i`, moving the last element into its place. -/
def swapRemove (l : List AccountId) (i : Nat) : List AccountId :=
  (l.set i (l.getLastD 0)).dropLast

/-- pallet-access storage: `Roles` and `MemberRoles`. -/
structure AccessState where
  roles : Role → Option Unit
  memberRoles : Role → AccountId → Option Bool

/-- `pallet_patient::Patients<T>`. -/
structure Patients where
  name : Bytes
  email : Bytes
  data_hash : Option Bytes
deriving DecidableEq, Repr

/-- `Default for Patients<T>`: empty bounded vectors and no data hash. -/
def defaultPatients : Patients :=
  { name := [], email := [], data_hash := none }

/-- pallet-patient storage: `DataMap`, `RequestMap`, `AprovedRequestMap`.
The double maps are keyed first by the patient (owner) account, then by the
requester account. -/
structure PatientState where
  dataMap : AccountId → Option Patients
  requestMap : AccountId → AccountId → Option RequestId
  aprovedRequestMap : AccountId → AccountId → Option RequestId

/-- `pallet_doctor::Doctors<T>`. -/
structure Doctors where
  personal_data_hash : Option Bytes
deriving DecidableEq, Repr

/-- pallet-doctor storage: `DataMap`, `RequestMap`, `AprovedRequestMap`.
The two list maps are keyed by the requesting doctor's account and hold
patient accounts; they are `ValueQuery` maps defaulting to the empty list. -/
structure DoctorState where
  dataMap : AccountId → Option Doctors
  requestMap : AccountId → List AccountId
  aprovedRequestMap : AccountId → List AccountId

namespace Access

/-- `pallet_access::assign_role`. -/
def assign_role (a : AccessState) (user : AccountId) (new_role : Role) :
    OpResult × AccessState :=
  if (a.roles new_role).isNone then (.err (.access .invalidRole), a)
  else if a.memberRoles new_role user = some true then (.err (.access .alreadyHasRole), a)
  else
    (.ok [.roleAssigned user new_role],
     { a with memberRoles := fun r u =>
         if r = new_role ∧ u = user then some true else a.memberRoles r u })

/-- `pallet_access::revoke_role`. -/
def revoke_role (a : AccessState) (user : AccountId) (new_role : Role) :
    OpResult × AccessState :=
  if (a.roles new_role).isNone then (.err (.access .invalidRole), a)
  else
    match a.memberRoles new_role user with
    | none => (.err (.access .notAssigned), a)
    | some b =>
      if b then
        (.ok [.roleRevoked user new_role],
         { a with memberRoles := fun r u =>
             if r = new_role ∧ u = user then some false else a.memberRoles r u })
      else (.err (.access .notAssigned), a)

/-- `pallet_access::validate_role`: pure check, mutates nothing. -/
def validate_role (a : AccessState) (user : AccountId) (new_role : Role) :
    Except DispatchError Unit :=
  if (a.roles new_role).isNone then .error (.access .invalidRole)
  else
    match a.memberRoles new_role user with
    | none => .error (.access .notAssigned)
    | some b => if b then .ok () else .error (.access .accessDenied)

/-- Modelled from the spec: `pallet_access::Pallet::validate` is called by
pallet-patient (`validate(origin, sender, [0u8; 32])`) but its body is not
among the provided sources.  Per the spec, `hasRole` "is the authorization
primitive every privileged call in other components must invoke before
proceeding", so `validate` is modelled as the role-membership check
`validate_role` for the given account and role. -/
def validate (a : AccessState) (user : AccountId) (role : Role) :
    Except DispatchError Unit :=
  validate_role a user role

end Access

namespace Doctor

/-- `pallet_doctor::register_self`. -/
def register_self (s : DoctorState) (doctor_account_id : AccountId)
    (personal_data_hash : Option Bytes) : OpResult × DoctorState :=
  if (s.dataMap doctor_account_id).isSome then (.err (.doctor .alreadyRegistered), s)
  else
    (.ok [.doctorDataUpdated doctor_account_id],
     { s with dataMap := mapInsert s.dataMap doctor_account_id ⟨personal_data_hash⟩ })

/-- `pallet_doctor::add_request`: duplicate check, then `try_append` into the
bounded list (which fails exactly when the list already has `MaxListLength`
elements). -/
def add_request (cfg : Config) (s : DoctorState)
    (requester patient_account_id : AccountId) : OpResult × DoctorState :=
  let patient_ids := s.requestMap requester
  if patient_account_id ∈ patient_ids then (.err (.doctor .alreadyRequested), s)
  else if cfg.maxListLength ≤ patient_ids.length then
    (.err (.doctor .maxListLengthReached), s)
  else
    (.ok [.doctorRequestQueued requester patient_account_id],
     { s with requestMap := fun x =>
         if x = requester then patient_ids ++ [patient_account_id] else s.requestMap x })

/-- `pallet_doctor::remove_request`: membership check, `position` +
`swap_remove`, write back.  The unreachable `else` branch of the source's
`if let Some(ind) = position` (the position always exists after the
membership check) is folded into the match. -/
def remove_request (s : DoctorState) (requester patient_account_id : AccountId) :
    OpResult × DoctorState :=
  let patient_ids := s.requestMap requester
  if patient_account_id ∈ patient_ids then
    (.ok [],
     { s with requestMap := fun x =>
         if x = requester then swapRemove patient_ids (patient_ids.indexOf patient_account_id)
         else s.requestMap x })
  else (.err (.doctor .noRequest), s)

/-- `pallet_doctor::add_approved_request`: calls `remove_request` (whose
pending-list write is applied immediately), then checks the approved list for
a duplicate, then `try_append`s into the approved list. -/
def add_approved_request (cfg : Config) (s : DoctorState)
    (patient_account_id requester : AccountId) : OpResult × DoctorState :=
  let r1 := remove_request s requester patient_account_id
  match r1.1 with
  | .err e => (.err e, r1.2)
  | .panicked => (.panicked, r1.2)
  | .ok _ =>
    let s1 := r1.2
    let approved_patient_ids := s1.aprovedRequestMap requester
    if patient_account_id ∈ approved_patient_ids then (.err (.doctor .alreadyApproved), s1)
    else if cfg.maxListLength ≤ approved_patient_ids.length then
      (.err (.doctor .maxListLengthReached), s1)
    else
      (.ok [.doctorRequestApproved requester patient_account_id],
       { s1 with aprovedRequestMap := fun x =>
           if x = requester then approved_patient_ids ++ [patient_account_id]
           else s1.aprovedRequestMap x })

end Doctor

namespace Patient

/-- `pallet_patient::register`: existence check, bounded conversions of name
and email (failing with `BoundsOverflow`), insert, event. -/
def register (cfg : Config) (p : PatientState) (patient_account : AccountId)
    (name email : Bytes) (data_hash : Option Bytes) : OpResult × PatientState :=
  if (p.dataMap patient_account).isSome then (.err (.patient .alreadyRegistered), p)
  else if cfg.maxNameLength < name.length then (.err (.patient .boundsOverflow), p)
  else if cfg.maxEmailLength < email.length then (.err (.patient .boundsOverflow), p)
  else
    let patient : Patients := { name := name, email := email, data_hash := data_hash }
    (.ok [.patientDataUpdated patient_account name],
     { p with dataMap := mapInsert p.dataMap patient_account patient })

/-- `pallet_patient::request`: rejects only a duplicate pending entry for the
same (patient, requester) pair, then inserts into `RequestMap`. -/
def request (p : PatientState) (request_unique_id : RequestId)
    (requester patient_account_id : AccountId) : OpResult × PatientState :=
  if (p.requestMap patient_account_id requester).isSome then
    (.err (.patient .onlyOneRequestAllowed), p)
  else
    (.ok [.requestQueued requester patient_account_id request_unique_id],
     { p with requestMap :=
         dmapInsert p.requestMap patient_account_id requester request_unique_id })

/-- `pallet_patient::approve`: requires a pending entry, reads its id, removes
it from `RequestMap` and inserts it into `AprovedRequestMap`. -/
def approve (p : PatientState) (patient_account_id requester : AccountId) :
    OpResult × PatientState :=
  match p.requestMap patient_account_id requester with
  | none => (.err (.patient .noRequest), p)
  | some request_unique_id =>
    (.ok [.requestApproved requester patient_account_id request_unique_id],
     { p with
         requestMap := dmapRemove p.requestMap patient_account_id requester,
         aprovedRequestMap :=
           dmapInsert p.aprovedRequestMap patient_account_id requester request_unique_id })

/-- `pallet_patient::get_patient_data` (call): approved check, then
`DataMap::get(..).unwrap().data_hash.unwrap()` — each `unwrap` of `None`
is a runtime panic.  Mutates nothing. -/
def get_patient_data (p : PatientState) (requester patient_account_id : AccountId) :
    OpResult :=
  if (p.aprovedRequestMap patient_account_id requester).isNone then
    .err (.patient .noRequest)
  else
    match p.dataMap patient_account_id with
    | none => .panicked
    | some pd =>
      match pd.data_hash with
      | none => .panicked
      | some data => .ok [.requestFulfilled requester patient_account_id data]

/-- `pallet_patient::update_patient_data` (call): approved check, then the
`pallet_access::validate` role check, then `get(..).unwrap_or_default()`,
replace `data_hash`, insert back. -/
def update_patient_data (a : AccessState) (p : PatientState)
    (requester patient_account_id : AccountId) (data_hash : Option Bytes) :
    OpResult × PatientState :=
  if (p.aprovedRequestMap patient_account_id requester).isNone then
    (.err (.patient .noRequest), p)
  else
    match Access.validate a requester doctorRole with
    | .error e => (.err e, p)
    | .ok _ =>
      let patient_data := (p.dataMap patient_account_id).getD defaultPatients
      let patient_data1 := { patient_data with data_hash := data_hash }
      (.ok [.dataUpdated requester patient_account_id],
       { p with dataMap := mapInsert p.dataMap patient_account_id patient_data1 })

end Patient

/-- Little-endian fixed-width SCALE encoding of a `u32`. -/
def u32le (n : Nat) : Bytes :=
  [n % 256, n / 256 % 256, n / 65536 % 256, n / 16777216 % 256]

/-- The SCALE encoding of the tuple
`(random, extrinsic_index, block_number)` built by
`pallet_patient::gen_request_id`: the randomness hash bytes followed by the
fixed-width encodings of the `u32` extrinsic index and block number. -/
def encodedPayload (random : Bytes) (extrinsic_index block_number : Nat) : Bytes :=
  random ++ u32le extrinsic_index ++ u32le block_number

/-- `pallet_patient::gen_request_id`, with the `blake2_128` hash abstracted
as a function parameter `h` (the hash itself is external library code). -/
def gen_request_id (h : Bytes → Bytes) (random : Bytes)
    (extrinsic_index block_number : Nat) : Bytes :=
  h (encodedPayload random extrinsic_index block_number)

/-- Combined storage of the three pallets. -/
structure SystemState where
  access : AccessState
  patient : PatientState
  doctor : DoctorState

/-- The empty genesis storage (no roles, no profiles, no requests). -/
def emptySystem : SystemState :=
  { access := { roles := fun _ => none, memberRoles := fun _ _ => none },
    patient := { dataMap := fun _ => none, requestMap := fun _ _ => none,
                 aprovedRequestMap := fun _ _ => none },
    doctor := { dataMap := fun _ => none, requestMap := fun _ => [],
                aprovedRequestMap := fun _ => [] } }

/-- One committed operation: the dispatchable calls of the three pallets
(with the signed caller made explicit and the minted request id passed in,
since the randomness source is external), plus the public pallet-doctor
helpers `add_request` / `add_approved_request` that other runtime code may
invoke. -/
inductive Op where
  | registerPatientSelf (sender : AccountId) (name email : Bytes) (data_hash : Option Bytes)
  | registerPatient (sender patient : AccountId) (name email : Bytes) (data_hash : Option Bytes)
  | requestPatientData (sender patient : AccountId) (request_unique_id : RequestId)
  | approveRequest (sender requester : AccountId)
  | getPatientData (sender patient : AccountId)
  | updatePatientData (sender patient : AccountId) (data_hash : Option Bytes)
  | doctorRegister (sender : AccountId) (personal_data_hash : Option Bytes)
  | assign (user : AccountId) (role : Role)
  | revoke (user : AccountId) (role : Role)
  | hasRole (sender user : AccountId) (role : Role)
  | doctorAddRequest (requester patient : AccountId)
  | doctorAddApprovedRequest (patient requester : AccountId)

/-- Run one operation against the combined storage. -/
def runOp (cfg : Config) (s : SystemState) : Op → OpResult × SystemState
  | .registerPatientSelf sender name email dh =>
    let r := Patient.register cfg s.patient sender name email dh
    (r.1, { s with patient := r.2 })
  | .registerPatient sender patient name email dh =>
    match Access.validate s.access sender doctorRole with
    | .error e => (.err e, s)
    | .ok _ =>
      let r := Patient.register cfg s.patient patient name email dh
      (r.1, { s with patient := r.2 })
  | .requestPatientData sender patient rid =>
    let r := Patient.request s.patient rid sender patient
    (r.1, { s with patient := r.2 })
  | .approveRequest sender requester =>
    let r := Patient.approve s.patient sender requester
    (r.1, { s with patient := r.2 })
  | .getPatientData sender patient =>
    (Patient.get_patient_data s.patient sender patient, s)
  | .updatePatientData sender patient dh =>
    let r := Patient.update_patient_data s.access s.patient sender patient dh
    (r.1, { s with patient := r.2 })
  | .doctorRegister sender dh =>
    let r := Doctor.register_self s.doctor sender dh
    (r.1, { s with doctor := r.2 })
  | .assign user role =>
    let r := Access.assign_role s.access user role
    (r.1, { s with access := r.2 })
  | .revoke user role =>
    let r := Access.revoke_role s.access user role
    (r.1, { s with access := r.2 })
  | .hasRole _sender user role =>
    (match Access.validate_role s.access user role with
     | .ok _ => .ok []
     | .error e => .err e, s)
  | .doctorAddRequest requester patient =>
    let r := Doctor.add_request cfg s.doctor requester patient
    (r.1, { s with doctor := r.2 })
  | .doctorAddApprovedRequest patient requester =>
    let r := Doctor.add_approved_request cfg s.doctor patient requester
    (r.1, { s with doctor := r.2 })

/-- The storage left behind by one operation (failed checks having left the
storage exactly as the pallet code does at the point of return). -/
def applyOp (cfg : Config) (s : SystemState) (op : Op) : SystemState :=
  (runOp cfg s op).2

/-- Storage after a sequence of committed operations. -/
def applyAll (cfg : Config) (s : SystemState) (ops : List Op) : SystemState :=
  ops.foldl (applyOp cfg) s

/-- Spec invariant 2 for the patient pallet's maps: no (owner, requester)
pair is simultaneously pending and approved. -/
def PatientInv (p : PatientState) : Prop :=
  ∀ o r, (p.requestMap o r).isSome = true → (p.aprovedRequestMap o r).isNone = true

/-- Guard on a single operation: a `request_patient_data` call must target a
pair that is not currently approved.  (The pallet code itself never checks
this.) -/
def guardOk (s : SystemState) : Op → Bool
  | .requestPatientData sender patient _ => (s.patient.aprovedRequestMap patient sender).isNone
  | _ => true

/-- A trace is guarded when every request in it targets a pair that is not
approved at the moment the request runs. -/
def requestGuard (cfg : Config) : SystemState → List Op → Bool
  | _, [] => true
  | s, op :: rest => guardOk s op && requestGuard cfg (applyOp cfg s op) rest

/-- A concrete configuration used for concrete evaluations. -/
def cfg0 : Config :=
  { maxNameLength := 10, maxEmailLength := 10, maxHashLength := 10, maxListLength := 1 }

/-- Replace the data hash of a patient record. -/
def withDataHash (pd : Patients) (dh : Option Bytes) : Patients :=
  { pd with data_hash := dh }

/-- A doctor storage where doctor 2 has a pending request for patient 1 and a
full (capacity 1) approved list holding patient 3. -/
def c3Doctor : DoctorState :=
  { dataMap := fun _ => none,
    requestMap := fun x => if x = 2 then [1] else [],
    aprovedRequestMap := fun x => if x = 2 then [3] else [] }

/-- A patient storage where patient 1 is registered with a data hash and the
pair (owner 1, requester 2) is approved. -/
def c6Patient : PatientState :=
  { dataMap := fun a =>
      if a = 1 then some { name := [], email := [], data_hash := some [9] } else none,
    requestMap := fun _ _ => none,
    aprovedRequestMap := fun o r => if o = 1 ∧ r = 2 then some [5] else none }

/-- An access storage where only the doctor role is registered and no account
holds any role. -/
def a7 : AccessState :=
  { roles := fun rl => if rl = doctorRole then some () else none,
    memberRoles := fun _ _ => none }

/-- A doctor storage where doctor 0 has a full pending list [3] and a full
approved list [4] (capacity 1). -/
def s8 : DoctorState :=
  { dataMap := fun _ => none,
    requestMap := fun x => if x = 0 then [3] else [],
    aprovedRequestMap := fun x => if x = 0 then [4] else [] }

/-- A combined storage with an approved patient-pallet entry for the pair
(owner 1, requester 2) and patient 1 in doctor 2's approved list. -/
def s10 : SystemState :=
  { access := { roles := fun _ => none, memberRoles := fun _ _ => none },
    patient := { dataMap := fun _ => none, requestMap := fun _ _ => none,
                 aprovedRequestMap := fun o r => if o = 1 ∧ r = 2 then some [5] else none },
    doctor := { dataMap := fun _ => none, requestMap := fun _ => [],
                aprovedRequestMap := fun x => if x = 2 then [1] else [] } }

lemma inv_of_maps_eq {p q : PatientState} (h1 : q.requestMap = p.requestMap)
    (h2 : q.aprovedRequestMap = p.aprovedRequestMap) (hinv : PatientInv p) :
    PatientInv q := by
  intro o r hor
  rw [h2]
  exact hinv o r (h1 ▸ hor)

lemma register_maps (cfg : Config) (p : PatientState) (a : AccountId) (n e : Bytes)
    (d : Option Bytes) :
    ((Patient.register cfg p a n e d).2).requestMap = p.requestMap ∧
    ((Patient.register cfg p a n e d).2).aprovedRequestMap = p.aprovedRequestMap := by
  unfold Patient.register
  split_ifs <;> exact ⟨rfl, rfl⟩

lemma update_maps (a : AccessState) (p : PatientState) (r o : AccountId) (dh : Option Bytes) :
    ((Patient.update_patient_data a p r o dh).2).requestMap = p.requestMap ∧
    ((Patient.update_patient_data a p r o dh).2).aprovedRequestMap = p.aprovedRequestMap := by
  unfold Patient.update_patient_data
  split_ifs
  · exact ⟨rfl, rfl⟩
  · split <;> exact ⟨rfl, rfl⟩

lemma request_preserves_inv (p : PatientState) (rid : RequestId)
    (requester patient : AccountId) (hinv : PatientInv p)
    (hg : (p.aprovedRequestMap patient requester).isNone = true) :
    PatientInv ((Patient.request p rid requester patient).2) := by
  unfold Patient.request
  split_ifs with h
  · exact hinv
  · intro o r hor
    by_cases hk : o = patient ∧ r = requester
    · show (p.aprovedRequestMap o r).isNone = true
      rw [hk.1, hk.2]
      exact hg
    · have heq : dmapInsert p.requestMap patient requester rid o r = p.requestMap o r :=
        if_neg hk
      exact hinv o r (heq ▸ hor)

lemma approve_preserves_inv (p : PatientState) (patient requester : AccountId)
    (hinv : PatientInv p) :
    PatientInv ((Patient.approve p patient requester).2) := by
  unfold Patient.approve
  split
  · exact hinv
  · intro o r hor
    by_cases hk : o = patient ∧ r = requester
    · exfalso
      have h2 : dmapRemove p.requestMap patient requester o r = none := if_pos hk
      have h3 : (dmapRemove p.requestMap patient requester o r).isSome = true := hor
      rw [h2] at h3
      simp at h3
    · have h2 : dmapRemove p.requestMap patient requester o r = p.requestMap o r := if_neg hk
      have h4 := hinv o r (h2 ▸ hor)
      show (dmapInsert p.aprovedRequestMap patient requester _ o r).isNone = true
      have h5 : ∀ v, dmapInsert p.aprovedRequestMap patient requester v o r
          = p.aprovedRequestMap o r := fun v => if_neg hk
      rw [h5]
      exact h4

lemma inv_step (cfg : Config) (s : SystemState) (op : Op) (hinv : PatientInv s.patient)
    (hg : guardOk s op = true) : PatientInv (applyOp cfg s op).patient := by
  cases op with
  | registerPatientSelf sender n e d =>
    have h := register_maps cfg s.patient sender n e d
    exact inv_of_maps_eq h.1 h.2 hinv
  | registerPatient sender patient n e d =>
    show PatientInv
      ((match Access.validate s.access sender doctorRole with
        | .error e1 => (OpResult.err e1, s)
        | .ok _ =>
          let r := Patient.register cfg s.patient patient n e d
          (r.1, { s with patient := r.2 })).2.patient)
    rcases Access.validate s.access sender doctorRole with e1 | v
    · exact hinv
    · have h := register_maps cfg s.patient patient n e d
      exact inv_of_maps_eq h.1 h.2 hinv
  | requestPatientData sender patient rid =>
    exact request_preserves_inv s.patient rid sender patient hinv hg
  | approveRequest sender requester =>
    exact approve_preserves_inv s.patient sender requester hinv
  | getPatientData sender patient => exact hinv
  | updatePatientData sender patient dh =>
    have h := update_maps s.access s.patient sender patient dh
    exact inv_of_maps_eq h.1 h.2 hinv
  | doctorRegister sender dh => exact hinv
  | assign user role => exact hinv
  | revoke user role => exact hinv
  | hasRole sender user role => exact hinv
  | doctorAddRequest requester patient => exact hinv
  | doctorAddApprovedRequest patient requester => exact hinv

lemma inv_trace (cfg : Config) (ops : List Op) :
    ∀ s : SystemState, PatientInv s.patient → requestGuard cfg s ops = true →
      PatientInv (applyAll cfg s ops).patient := by
  induction ops with
  | nil => intro s hinv _; exact hinv
  | cons op rest ih =>
    intro s hinv hgd
    have hgd2 : guardOk s op = true ∧ requestGuard cfg (applyOp cfg s op) rest = true := by
      have : (guardOk s op && requestGuard cfg (applyOp cfg s op) rest) = true := hgd
      exact Bool.and_eq_true_iff.mp this
    have h1 := inv_step cfg s op hinv hgd2.1
    exact ih (applyOp cfg s op) h1 hgd2.2

lemma empty_inv : PatientInv emptySystem.patient := by
  intro o r h
  simp [emptySystem] at h

lemma request_aproved_eq (p : PatientState) (rid : RequestId) (req pat : AccountId) :
    ((Patient.request p rid req pat).2).aprovedRequestMap = p.aprovedRequestMap := by
  unfold Patient.request
  split_ifs <;> rfl

lemma approve_aproved_isSome (p : PatientState) (pat req o r : AccountId)
    (h : (p.aprovedRequestMap o r).isSome = true) :
    (((Patient.approve p pat req).2).aprovedRequestMap o r).isSome = true := by
  unfold Patient.approve
  split
  · exact h
  · by_cases hk : o = pat ∧ r = req
    · show (dmapInsert p.aprovedRequestMap pat req _ o r).isSome = true
      have h2 : ∀ v : RequestId, dmapInsert p.aprovedRequestMap pat req v o r = some v :=
        fun v => if_pos hk
      rw [h2]
      rfl
    · show (dmapInsert p.aprovedRequestMap pat req _ o r).isSome = true
      have h2 : ∀ v : RequestId, dmapInsert p.aprovedRequestMap pat req v o r
          = p.aprovedRequestMap o r := fun v => if_neg hk
      rw [h2]
      exact h

lemma doctor_register_aproved (s : DoctorState) (a : AccountId) (dh : Option Bytes) :
    ((Doctor.register_self s a dh).2).aprovedRequestMap = s.aprovedRequestMap := by
  unfold Doctor.register_self
  split_ifs <;> rfl

lemma add_request_aproved (cfg : Config) (s : DoctorState) (r p : AccountId) :
    ((Doctor.add_request cfg s r p).2).aprovedRequestMap = s.aprovedRequestMap := by
  unfold Doctor.add_request
  dsimp only
  split_ifs <;> rfl

lemma remove_request_aproved (s : DoctorState) (r p : AccountId) :
    ((Doctor.remove_request s r p).2).aprovedRequestMap = s.aprovedRequestMap := by
  unfold Doctor.remove_request
  dsimp only
  split_ifs <;> rfl

lemma add_approved_request_mem (cfg : Config) (s : DoctorState) (pat req o r : AccountId)
    (h : o ∈ s.aprovedRequestMap r) :
    o ∈ ((Doctor.add_approved_request cfg s pat req).2).aprovedRequestMap r := by
  have hrm := remove_request_aproved s req pat
  unfold Doctor.add_approved_request
  rcases hres : (Doctor.remove_request s req pat).1 with ev | e
  · simp only
    rw [hres]
    split_ifs with h1 h2
    · rw [hrm]; exact h
    · rw [hrm]; exact h
    · show o ∈ (if r = req then
          (Doctor.remove_request s req pat).2.aprovedRequestMap req ++ [pat]
        else (Doctor.remove_request s req pat).2.aprovedRequestMap r)
      by_cases hr : r = req
      · rw [if_pos hr, hrm, ← hr]
        exact List.mem_append_left _ h
      · rw [if_neg hr, hrm]
        exact h
  · simp only
    rw [hres, hrm]
    exact h
  · simp only
    rw [hres, hrm]
    exact h

/-- Four little-endian bytes determine the `u32` they encode. -/
lemma u32le_inj (m n : Nat) (hm : m < 4294967296) (hn : n < 4294967296)
    (h : u32le m = u32le n) : m = n := by
  unfold u32le at h
  simp only [List.cons.injEq, and_true] at h
  omega

/-- C1 counterexample: from empty storage, the committed trace request,
approve, request leaves the pair (owner 1, requester 2) simultaneously in the
pending map and in the approved map — `request` never consults the approved
map, so the claimed mutual exclusion fails on a reachable state. -/
theorem pending_and_approved_coexist_cex :
    (((applyAll cfg0 emptySystem
        [Op.requestPatientData 2 1 [5], Op.approveRequest 1 2,
         Op.requestPatientData 2 1 [6]]).patient.requestMap 1 2).isSome = true) ∧
    (((applyAll cfg0 emptySystem
        [Op.requestPatientData 2 1 [5], Op.approveRequest 1 2,
         Op.requestPatientData 2 1 [6]]).patient.aprovedRequestMap 1 2).isSome = true) := by
  decide

/-- C1 (amended): for every state reachable from empty storage by a sequence
of committed operations in which no request targets a pair that is already
approved, at most one of pending and approved holds for every
(owner, requester) pair. -/
theorem pending_approved_exclusive_on_guarded_traces (cfg : Config) (ops : List Op)
    (hg : requestGuard cfg emptySystem ops = true) (o r : AccountId)
    (hp : ((applyAll cfg emptySystem ops).patient.requestMap o r).isSome = true) :
    ((applyAll cfg emptySystem ops).patient.aprovedRequestMap o r).isNone = true :=
  inv_trace cfg ops emptySystem empty_inv hg o r hp

/-- C1 witness: the amended theorem applied to the guarded one-request trace. -/
theorem pending_approved_exclusive_witness :
    (requestGuard cfg0 emptySystem [Op.requestPatientData 2 1 [5]] = true) ∧
    (((applyAll cfg0 emptySystem
        [Op.requestPatientData 2 1 [5]]).patient.requestMap 1 2).isSome = true) ∧
    (((applyAll cfg0 emptySystem
        [Op.requestPatientData 2 1 [5]]).patient.aprovedRequestMap 1 2).isNone = true) :=
  ⟨by decide, by decide,
   pending_approved_exclusive_on_guarded_traces cfg0 [Op.requestPatientData 2 1 [5]]
     (by decide) 1 2 (by decide)⟩

/-- C2 counterexample: in a reachable state where owner 1 has no Profile and
the pair (1, 2) is already approved, `request` nevertheless succeeds — the
code performs neither the claimed `NoProfile` check nor the claimed
`AlreadyApproved` check. -/
theorem request_succeeds_without_profile_cex :
    (let s := applyAll cfg0 emptySystem [Op.requestPatientData 2 1 [5], Op.approveRequest 1 2]
     (s.patient.dataMap 1 = none) ∧
     ((s.patient.aprovedRequestMap 1 2).isSome = true) ∧
     ((Patient.request s.patient [6] 2 1).1 = .ok [.requestQueued 2 1 [6]])) := by
  decide

/-- C2 (amended): `request` fails with `OnlyOneRequestAllowed` exactly when
the pair is already pending, and otherwise inserts the requester under the
owner's pending key and succeeds — regardless of whether the owner has a
Profile or the pair is already approved. -/
theorem request_characterization (p : PatientState) (rid : RequestId) (r o : AccountId) :
    (p.requestMap o r = none →
      Patient.request p rid r o =
        (.ok [.requestQueued r o rid],
         { p with requestMap := dmapInsert p.requestMap o r rid })) ∧
    (∀ x, p.requestMap o r = some x →
      Patient.request p rid r o = (.err (.patient .onlyOneRequestAllowed), p)) := by
  constructor
  · intro h1
    unfold Patient.request
    rw [h1]
    rfl
  · intro x h1
    unfold Patient.request
    rw [h1]
    rfl

/-- C2 witness: the characterization applied at the empty patient storage. -/
theorem request_characterization_witness :
    (emptySystem.patient.requestMap 1 2 = none) ∧
    (Patient.request emptySystem.patient [5] 2 1 =
      (.ok [.requestQueued 2 1 [5]],
       { emptySystem.patient with
           requestMap := dmapInsert emptySystem.patient.requestMap 1 2 [5] })) :=
  ⟨rfl, (request_characterization emptySystem.patient [5] 2 1).1 rfl⟩

/-- C3: pallet-doctor `add_approved_request` evaluated at a state where the
pair is pending and the approved list is full: it returns the capacity error
after the `remove_request` write has already been applied, so the pending
list is left changed by the failed call. -/
theorem approve_partial_write_on_capacity_error :
    ((Doctor.add_approved_request cfg0 c3Doctor 1 2).1
       = .err (.doctor .maxListLengthReached)) ∧
    (c3Doctor.requestMap 2 = [1]) ∧
    ((Doctor.add_approved_request cfg0 c3Doctor 1 2).2.requestMap 2 = []) := by
  decide

/-- C4: from any state in which the pair (owner, requester) is absent from
both maps, `request` followed immediately by `approve` succeeds, and both
events and the stored approved entry carry the request id minted at request
time. -/
theorem request_then_approve_preserves_correlation_id (p : PatientState)
    (o r : AccountId) (rid : RequestId)
    (h1 : p.requestMap o r = none) (h2 : p.aprovedRequestMap o r = none) :
    ((Patient.request p rid r o).1 = .ok [.requestQueued r o rid]) ∧
    ((Patient.approve (Patient.request p rid r o).2 o r).1
       = .ok [.requestApproved r o rid]) ∧
    (((Patient.approve (Patient.request p rid r o).2 o r).2).aprovedRequestMap o r
       = some rid) := by
  have hreq : Patient.request p rid r o =
      (.ok [.requestQueued r o rid],
       { p with requestMap := dmapInsert p.requestMap o r rid }) := by
    unfold Patient.request
    rw [h1]
    rfl
  rw [hreq]
  have hkey : dmapInsert p.requestMap o r rid o r = some rid := if_pos ⟨rfl, rfl⟩
  unfold Patient.approve
  dsimp only
  rw [hkey]
  refine ⟨rfl, rfl, ?_⟩
  exact if_pos ⟨rfl, rfl⟩

/-- C4 witness: the theorem applied at the empty patient storage. -/
theorem request_then_approve_witness :
    (emptySystem.patient.requestMap 1 2 = none) ∧
    (emptySystem.patient.aprovedRequestMap 1 2 = none) ∧
    (((Patient.approve (Patient.request emptySystem.patient [5] 2 1).2 1 2).2).aprovedRequestMap
        1 2 = some [5]) :=
  ⟨rfl, rfl,
   (request_then_approve_preserves_correlation_id emptySystem.patient 1 2 [5] rfl rfl).2.2⟩

/-- C5: the pair (1, 2) is approved in a reachable state in which owner 1 has
no record; `get_patient_data` then panics on `DataMap::get(..).unwrap()`
instead of failing gracefully with a `NoData`-style error. -/
theorem get_patient_data_panics_on_missing_data :
    (let s := applyAll cfg0 emptySystem [Op.requestPatientData 2 1 [5], Op.approveRequest 1 2]
     (s.patient.dataMap 1 = none) ∧
     ((s.patient.aprovedRequestMap 1 2).isSome = true) ∧
     (Patient.get_patient_data s.patient 2 1 = OpResult.panicked)) := by
  decide

/-- C6 counterexample: the pair (owner 1, requester 2) is approved and owner 1
has a record, yet `update_patient_data` fails (with the role error from the
access check) — so the update does impose a precondition beyond the approved
grant, refuting the claimed "succeeds if and only if Approved". -/
theorem update_blocked_by_role_check_cex :
    ((c6Patient.aprovedRequestMap 1 2).isSome = true) ∧
    ((Patient.update_patient_data emptySystem.access c6Patient 2 1 (some [7])).1
       = .err (.access .invalidRole)) := by
  decide

/-- C6 (amended): `update_patient_data` fails with `NoRequest` whenever the
pair is not approved (regardless of any pending request), propagates the
access-role error when the pair is approved but the requester fails the
`[0u8; 32]`-role validation, and succeeds exactly when the pair is approved
and the role validation passes — in which case it stores the owner's record
(a default record if none existed) with its data hash replaced. -/
theorem update_characterization (a : AccessState) (p : PatientState) (r o : AccountId)
    (dh : Option Bytes) :
    (p.aprovedRequestMap o r = none →
      Patient.update_patient_data a p r o dh = (.err (.patient .noRequest), p)) ∧
    (∀ v e, p.aprovedRequestMap o r = some v →
      Access.validate a r doctorRole = .error e →
      Patient.update_patient_data a p r o dh = (.err e, p)) ∧
    (∀ v, p.aprovedRequestMap o r = some v →
      Access.validate a r doctorRole = .ok () →
      ((Patient.update_patient_data a p r o dh).1 = .ok [.dataUpdated r o]) ∧
      (((Patient.update_patient_data a p r o dh).2).dataMap o
         = some (withDataHash ((p.dataMap o).getD defaultPatients) dh)) ∧
      (((Patient.update_patient_data a p r o dh).2).requestMap = p.requestMap) ∧
      (((Patient.update_patient_data a p r o dh).2).aprovedRequestMap
         = p.aprovedRequestMap)) := by
  refine ⟨?_, ?_, ?_⟩
  · intro h1
    unfold Patient.update_patient_data
    rw [h1]
    rfl
  · intro v e h1 h2
    simp only [Patient.update_patient_data, h1, h2, Option.isNone_some, Bool.false_eq_true,
      if_false]
  · intro v h1 h2
    unfold Patient.update_patient_data
    rw [h1]
    dsimp only
    rw [h2]
    refine ⟨rfl, ?_, rfl, rfl⟩
    exact if_pos rfl

/-- C6 witness: the success branch of the characterization at a state where
the pair is approved and the requester holds the doctor role. -/
theorem update_characterization_witness :
    (c6Patient.aprovedRequestMap 1 2 = some [5]) ∧
    (Access.validate (Access.assign_role a7 2 doctorRole).2 2 doctorRole = .ok ()) ∧
    ((Patient.update_patient_data (Access.assign_role a7 2 doctorRole).2 c6Patient 2 1
        (some [7])).1 = .ok [.dataUpdated 2 1]) :=
  ⟨by decide, rfl,
   ((update_characterization (Access.assign_role a7 2 doctorRole).2 c6Patient 2 1
       (some [7])).2.2 [5] (by decide) rfl).1⟩

/-- C7 counterexample: role registered, account assigned, hasRole succeeds,
revoke succeeds — but the subsequent `validate_role` fails with
`AccessDenied`, not the claimed `NotAssigned`, because revocation stores
`false` under the key instead of removing it, and a present-but-false flag
takes the `AccessDenied` branch. -/
theorem validate_after_revoke_access_denied_cex :
    ((Access.assign_role a7 5 doctorRole).1 = .ok [.roleAssigned 5 doctorRole]) ∧
    (Access.validate_role (Access.assign_role a7 5 doctorRole).2 5 doctorRole = .ok ()) ∧
    ((Access.revoke_role (Access.assign_role a7 5 doctorRole).2 5 doctorRole).1
       = .ok [.roleRevoked 5 doctorRole]) ∧
    (Access.validate_role
        (Access.revoke_role (Access.assign_role a7 5 doctorRole).2 5 doctorRole).2 5 doctorRole
       = .error (.access .accessDenied)) ∧
    ((Except.error (DispatchError.access .accessDenied) : Except DispatchError Unit)
       ≠ .error (.access .notAssigned)) :=
  ⟨by decide, rfl, by decide, rfl, by simp⟩

/-- C7 (amended): for any registered role and any account not currently
holding it, after `assign_role` succeeds `validate_role` succeeds, and after
a subsequent `revoke_role` succeeds `validate_role` fails with
`AccessDenied`. -/
theorem assign_validate_revoke_validate (a : AccessState) (u : AccountId) (rl : Role)
    (hreg : a.roles rl = some ()) (hnot : a.memberRoles rl u ≠ some true) :
    ((Access.assign_role a u rl).1 = .ok [.roleAssigned u rl]) ∧
    (Access.validate_role (Access.assign_role a u rl).2 u rl = .ok ()) ∧
    ((Access.revoke_role (Access.assign_role a u rl).2 u rl).1 = .ok [.roleRevoked u rl]) ∧
    (Access.validate_role
        (Access.revoke_role (Access.assign_role a u rl).2 u rl).2 u rl
       = .error (.access .accessDenied)) := by
  have hro : (a.roles rl).isNone = false := by rw [hreg]; rfl
  refine ⟨?_, ?_, ?_, ?_⟩ <;>
    simp [Access.assign_role, Access.revoke_role, Access.validate_role, hro, hnot]

/-- C7 witness: the amended theorem at the concrete single-role storage. -/
theorem assign_validate_revoke_validate_witness :
    (a7.roles doctorRole = some ()) ∧
    (Access.validate_role
        (Access.revoke_role (Access.assign_role a7 5 doctorRole).2 5 doctorRole).2 5 doctorRole
       = .error (.access .accessDenied)) :=
  ⟨by decide,
   (assign_validate_revoke_validate a7 5 doctorRole (by decide)
      (fun h => Option.noConfusion h)).2.2.2⟩

/-- C8: a pending-list insert for a distinct account into a full list fails
with `MaxListLengthReached` leaving all storage unchanged, and an
approved-list insert for a distinct account into a full approved list fails
with `MaxListLengthReached` leaving the approved list's length and contents
unchanged. -/
theorem insert_beyond_capacity_rejected (cfg : Config) (s : DoctorState)
    (requester patient : AccountId) :
    ((s.requestMap requester).length = cfg.maxListLength →
     patient ∉ s.requestMap requester →
       Doctor.add_request cfg s requester patient
         = (.err (.doctor .maxListLengthReached), s)) ∧
    (patient ∈ s.requestMap requester →
     (s.aprovedRequestMap requester).length = cfg.maxListLength →
     patient ∉ s.aprovedRequestMap requester →
       ((Doctor.add_approved_request cfg s patient requester).1
          = .err (.doctor .maxListLengthReached)) ∧
       ((Doctor.add_approved_request cfg s patient requester).2.aprovedRequestMap requester
          = s.aprovedRequestMap requester)) := by
  constructor
  · intro hlen hmem
    unfold Doctor.add_request
    dsimp only
    rw [if_neg hmem, if_pos hlen.ge]
  · intro hmem hlen hnmem
    have hr1 : (Doctor.remove_request s requester patient).1 = .ok [] := by
      unfold Doctor.remove_request
      dsimp only
      rw [if_pos hmem]
    have hr2 : (Doctor.remove_request s requester patient).2.aprovedRequestMap
        = s.aprovedRequestMap := remove_request_aproved s requester patient
    unfold Doctor.add_approved_request
    dsimp only
    rw [hr1]
    dsimp only
    rw [hr2, if_neg hnmem, if_pos hlen.ge]
    exact ⟨rfl, hr2 ▸ rfl⟩

/-- C8 witness: both parts of the theorem at a doctor storage whose pending
and approved lists for doctor 0 are at the configured capacity 1. -/
theorem insert_beyond_capacity_witness :
    (Doctor.add_request cfg0 s8 0 1 = (.err (.doctor .maxListLengthReached), s8)) ∧
    ((Doctor.add_approved_request cfg0 s8 3 0).1 = .err (.doctor .maxListLengthReached)) ∧
    ((Doctor.add_approved_request cfg0 s8 3 0).2.aprovedRequestMap 0
       = s8.aprovedRequestMap 0) :=
  ⟨(insert_beyond_capacity_rejected cfg0 s8 0 1).1 (by decide) (by decide),
   ((insert_beyond_capacity_rejected cfg0 s8 0 3).2 (by decide) (by decide) (by decide)).1,
   ((insert_beyond_capacity_rejected cfg0 s8 0 3).2 (by decide) (by decide) (by decide)).2⟩

/-- C9: two request ids generated in the same block from the same randomness
seed at different extrinsic indices are distinct: the encoded payloads are
distinct unconditionally, and the generated ids are distinct for any
injective (collision-free) instantiation of the `blake2_128` hash. -/
theorem gen_request_id_distinct (h : Bytes → Bytes) (random : Bytes) (bn e1 e2 : Nat)
    (hinj : Function.Injective h) (hne : e1 ≠ e2)
    (hb1 : e1 < 4294967296) (hb2 : e2 < 4294967296) :
    (encodedPayload random e1 bn ≠ encodedPayload random e2 bn) ∧
    (gen_request_id h random e1 bn ≠ gen_request_id h random e2 bn) := by
  have hpay : encodedPayload random e1 bn ≠ encodedPayload random e2 bn := by
    intro he
    unfold encodedPayload at he
    have hx := List.append_cancel_left (List.append_cancel_right he)
    exact hne (u32le_inj e1 e2 hb1 hb2 hx)
  exact ⟨hpay, fun he => hpay (hinj he)⟩

/-- C9 witness: the theorem at extrinsic indices 0 and 1 with the identity
hash (which is injective). -/
theorem gen_request_id_distinct_witness :
    ((0 : Nat) ≠ 1) ∧ (gen_request_id id [] 0 0 ≠ gen_request_id id [] 1 0) :=
  ⟨by decide,
   (gen_request_id_distinct id [] 0 0 1 Function.injective_id (by decide)
      (by decide) (by decide)).2⟩

/-- C10: no operation of the system removes an approved entry: if the pair
(owner o, requester r) is approved in the patient pallet's map, it remains
approved after any operation, and if patient o is in doctor r's approved
list, it remains there after any operation — once granted, access never
returns to absent. -/
theorem approved_entries_persistent (cfg : Config) (s : SystemState) (op : Op)
    (o r : AccountId) :
    ((s.patient.aprovedRequestMap o r).isSome = true →
      ((applyOp cfg s op).patient.aprovedRequestMap o r).isSome = true) ∧
    (o ∈ s.doctor.aprovedRequestMap r →
      o ∈ (applyOp cfg s op).doctor.aprovedRequestMap r) := by
  cases op with
  | registerPatientSelf sender n e d =>
    refine ⟨fun h => ?_, fun h => h⟩
    show ((Patient.register cfg s.patient sender n e d).2.aprovedRequestMap o r).isSome = true
    rw [(register_maps cfg s.patient sender n e d).2]
    exact h
  | registerPatient sender patient n e d =>
    constructor
    · intro h
      show (((match Access.validate s.access sender doctorRole with
          | .error e1 => (OpResult.err e1, s)
          | .ok _ =>
            let rr := Patient.register cfg s.patient patient n e d
            (rr.1, { s with patient := rr.2 })).2).patient.aprovedRequestMap o r).isSome = true
      rcases Access.validate s.access sender doctorRole with e1 | v
      · exact h
      · show ((Patient.register cfg s.patient patient n e d).2.aprovedRequestMap o r).isSome
            = true
        rw [(register_maps cfg s.patient patient n e d).2]
        exact h
    · intro h
      show o ∈ ((match Access.validate s.access sender doctorRole with
          | .error e1 => (OpResult.err e1, s)
          | .ok _ =>
            let rr := Patient.register cfg s.patient patient n e d
            (rr.1, { s with patient := rr.2 })).2).doctor.aprovedRequestMap r
      rcases Access.validate s.access sender doctorRole with e1 | v
      · exact h
      · exact h
  | requestPatientData sender patient rid =>
    refine ⟨fun h => ?_, fun h => h⟩
    show ((Patient.request s.patient rid sender patient).2.aprovedRequestMap o r).isSome = true
    rw [request_aproved_eq s.patient rid sender patient]
    exact h
  | approveRequest sender requester =>
    exact ⟨fun h => approve_aproved_isSome s.patient sender requester o r h, fun h => h⟩
  | getPatientData sender patient => exact ⟨fun h => h, fun h => h⟩
  | updatePatientData sender patient dh =>
    refine ⟨fun h => ?_, fun h => h⟩
    show ((Patient.update_patient_data s.access s.patient sender patient dh).2.aprovedRequestMap
        o r).isSome = true
    rw [(update_maps s.access s.patient sender patient dh).2]
    exact h
  | doctorRegister sender dh =>
    refine ⟨fun h => h, fun h => ?_⟩
    show o ∈ (Doctor.register_self s.doctor sender dh).2.aprovedRequestMap r
    rw [doctor_register_aproved s.doctor sender dh]
    exact h
  | assign user role => exact ⟨fun h => h, fun h => h⟩
  | revoke user role => exact ⟨fun h => h, fun h => h⟩
  | hasRole sender user role => exact ⟨fun h => h, fun h => h⟩
  | doctorAddRequest requester patient =>
    refine ⟨fun h => h, fun h => ?_⟩
    show o ∈ (Doctor.add_request cfg s.doctor requester patient).2.aprovedRequestMap r
    rw [add_request_aproved cfg s.doctor requester patient]
    exact h
  | doctorAddApprovedRequest patient requester =>
    refine ⟨fun h => h, fun h => ?_⟩
    exact add_approved_request_mem cfg s.doctor patient requester o r h

/-- C10 witness: the theorem applied, for both maps, to an operation run on a
storage holding an approved entry for the pair (1, 2) in the patient pallet
and patient 1 in doctor 2's approved list. -/
theorem approved_entries_persistent_witness :
    ((s10.patient.aprovedRequestMap 1 2).isSome = true) ∧
    (((applyOp cfg0 s10 (.getPatientData 0 0)).patient.aprovedRequestMap 1 2).isSome = true) ∧
    (1 ∈ s10.doctor.aprovedRequestMap 2) ∧
    (1 ∈ (applyOp cfg0 s10 (.getPatientData 0 0)).doctor.aprovedRequestMap 2) :=
  ⟨by decide,
   (approved_entries_persistent cfg0 s10 (.getPatientData 0 0) 1 2).1 (by decide),
   by decide,
   (approved_entries_persistent cfg0 s10 (.getPatientData 0 0) 1 2).2 (by decide)⟩

end HoneyProtocol
